import Mathlib

/-!
PharmaGuard: a shallow embedding of the pharmacogenomic inference pipeline
(the VCF validator/extractor, allele resolver, phenotype scorer and drug-gene
risk rule engine) together with theorems settling the specification claims.

Conventions of the embedding:
* JavaScript strings are Lean `String`; `null`/absent values are `Option`.
* A JavaScript value that may be either a string or the boolean `true`
  (as produced by bare INFO flags) is modelled by `JVal`.
* JavaScript truthiness of a string-or-null is: absent and the empty string
  are falsy, everything else truthy.
* Numeric activity scores and confidence values are rationals: every number
  the code manipulates is a multiple of 0.01, so this is exact.
* Object-key lookups are association-list lookups where the last binding of
  a key wins, matching object-literal/assignment semantics.
-/

namespace PharmaGuard

/-- JavaScript value that is either a string or the boolean true
(bare INFO flags are stored as true by parseInfo). -/
inductive JVal where
  | jstr (s : String)
  | jtrue
deriving DecidableEq, Repr

/-- JavaScript truthiness of a possibly-absent JVal: null and the empty
string are falsy. -/
def jvalTruthy : Option JVal → Bool
  | none => false
  | some (JVal.jstr s) => !s.isEmpty
  | some JVal.jtrue => true

/-- String coercion of a JVal, as performed by object-key indexing and
template literals (true coerces to the string true). -/
def jvalToString : JVal → String
  | JVal.jstr s => s
  | JVal.jtrue => "true"

/-- JavaScript `x || null` on a string-or-true-or-null value: keeps the
value when truthy, yields null otherwise. -/
def jsNorm (v : Option JVal) : Option JVal :=
  if jvalTruthy v then v else none

/-- JavaScript `a || b` on string-or-true-or-null values (result further
normalised so that a falsy b yields null, matching `a || b || null`). -/
def jsOr (a b : Option JVal) : Option JVal :=
  if jvalTruthy a then a else jsNorm b

/-- JavaScript `x || d` where x is a string-or-null and d a string:
the default is taken when x is null or empty. -/
def jsOrStr (v : Option String) (d : String) : String :=
  match v with
  | some s => if s.isEmpty then d else s
  | none => d

/-- JavaScript `a || b` on possibly-absent objects: objects are always
truthy, so this is Option.orElse. -/
def jsOrOpt {α : Type} (a b : Option α) : Option α :=
  match a with
  | some x => some x
  | none => b

/-- Association-list lookup with object semantics: the last binding of a
key wins. -/
def jsObjGet {α : Type} (l : List (String × α)) (k : String) : Option α :=
  (l.reverse.find? (fun p => p.1 == k)).map (fun p => p.2)

/-- JavaScript `Array.prototype.indexOf` restricted to string arrays,
returning none for -1. -/
def jsIndexOf (l : List String) (s : String) : Option Nat :=
  match l with
  | [] => none
  | x :: xs =>
    if x == s then some 0
    else (jsIndexOf xs s).map (fun n => n + 1)

/-- Kernel-computable split of a character list on a non-empty separator:
leftmost, non-overlapping occurrences; structural fuel (one character is
consumed per step, so fuel = length + 1 always suffices). -/
def splitChars (sep : List Char) : Nat → List Char → List (List Char)
  | 0, l => [l]
  | fuel + 1, l =>
    match l with
    | [] => [[]]
    | c :: rest =>
      if sep.isPrefixOf l then
        [] :: splitChars sep fuel (l.drop sep.length)
      else
        match splitChars sep fuel rest with
        | [] => [[c]]
        | seg :: segs => (c :: seg) :: segs

/-- JavaScript `s.split(sep)` for a non-empty string separator (the
embedding never splits on the empty string). -/
def jsSplitOn (s sep : String) : List String :=
  if sep.toList.isEmpty then [s]
  else (splitChars sep.toList (s.toList.length + 1) s.toList).map String.mk

/-- JavaScript `s.trim()`: strip leading and trailing whitespace. -/
def jsTrim (s : String) : String :=
  String.mk (((s.toList.dropWhile Char.isWhitespace).reverse.dropWhile
    Char.isWhitespace).reverse)

/-- JavaScript `s.startsWith(pre)`. -/
def jsStartsWith (s pre : String) : Bool :=
  pre.toList.isPrefixOf s.toList

/-- JavaScript `s.toLowerCase()` (ASCII, which covers every name the
pipeline compares). -/
def jsToLower (s : String) : String :=
  String.mk (s.toList.map Char.toLower)

/-- JavaScript `s.includes(sub)`: substring containment (every string
contains the empty string). -/
def jsIncludes (s sub : String) : Bool :=
  sub.isEmpty || (jsSplitOn s sub).length != 1

/-!  Knowledge base (knowledgeBase.js).  -/

/-- ALLELE_FUNCTIONS: per-gene star-allele function classifications. -/
def ALLELE_FUNCTIONS_TABLE : List (String × List (String × String)) :=
  [ ("CYP2D6",
      [ ("*1", "Normal Function"), ("*2", "Normal Function"),
        ("*3", "No Function"), ("*4", "No Function"),
        ("*5", "No Function"), ("*6", "No Function"),
        ("*9", "Decreased Function"), ("*10", "Decreased Function"),
        ("*17", "Decreased Function"), ("*41", "Decreased Function"),
        ("*1xN", "Increased Function"), ("*2xN", "Increased Function") ]),
    ("CYP2C19",
      [ ("*1", "Normal Function"), ("*2", "No Function"),
        ("*3", "No Function"), ("*4", "No Function"),
        ("*17", "Increased Function") ]),
    ("CYP2C9",
      [ ("*1", "Normal Function"), ("*2", "Decreased Function"),
        ("*3", "Decreased Function") ]),
    ("SLCO1B1",
      [ ("*1a", "Normal Function"), ("*1b", "Normal Function"),
        ("*5", "Decreased Function"), ("*15", "Decreased Function"),
        ("*17", "Decreased Function") ]),
    ("TPMT",
      [ ("*1", "Normal Function"), ("*2", "No Function"),
        ("*3A", "No Function"), ("*3B", "No Function"),
        ("*3C", "No Function") ]),
    ("DPYD",
      [ ("Reference", "Normal Function"), ("*2A", "No Function"),
        ("*13", "No Function"), ("c.2846A>T", "Decreased Function"),
        ("c.1129-5923C>G", "Decreased Function") ]) ]

/-- `ALLELE_FUNCTIONS[gene]?.[allele]` as a lookup function. -/
def ALLELE_FUNCTIONS (gene allele : String) : Option String :=
  (jsObjGet ALLELE_FUNCTIONS_TABLE gene).bind (fun t => jsObjGet t allele)

/-- getAlleleScore: activity contribution of one allele; an allele absent
from the table defaults to 1.0 and the switch default is also 1.0. -/
def getAlleleScore (gene allele : String) : ℚ :=
  match ALLELE_FUNCTIONS gene allele with
  | none => 1
  | some f =>
    if f = "No Function" then 0
    else if f = "Decreased Function" then 1/2
    else if f = "Normal Function" then 1
    else if f = "Increased Function" then 3/2
    else 1

/-- The if-chain of getPhenotype mapping an activity score to the
metabolizer phenotype name. -/
def phenotypeName (score : ℚ) : String :=
  if score = 0 then "Poor Metabolizer"
  else if score ≤ 1 then "Intermediate Metabolizer"
  else if score ≤ 2 then "Normal Metabolizer"
  else if score ≤ 5/2 then "Rapid Metabolizer"
  else "Ultra-Rapid Metabolizer"

/-- The abbreviation object lookup of getPhenotype; the wildcard case
(undefined in JavaScript) is unreachable for names produced by
phenotypeName. -/
def phenotypeAbbrev (phenotype : String) : String :=
  if phenotype = "Poor Metabolizer" then "PM"
  else if phenotype = "Intermediate Metabolizer" then "IM"
  else if phenotype = "Normal Metabolizer" then "NM"
  else if phenotype = "Rapid Metabolizer" then "RM"
  else if phenotype = "Ultra-Rapid Metabolizer" then "URM"
  else "undefined"

structure PhenotypeResult where
  diplotype : String
  phenotype : String
  abbreviation : String
  activityScore : ℚ
deriving DecidableEq, Repr

/-- The score line of getPhenotype: sum of the two allele scores. -/
def activityScore (gene allele1 allele2 : String) : ℚ :=
  getAlleleScore gene allele1 + getAlleleScore gene allele2

/-- getPhenotype: diplotype label, phenotype, abbreviation and activity
score from a gene and two alleles. -/
def getPhenotype (gene allele1 allele2 : String) : PhenotypeResult :=
  let score := activityScore gene allele1 allele2
  { diplotype := allele1 ++ "/" ++ allele2,
    phenotype := phenotypeName score,
    abbreviation := phenotypeAbbrev (phenotypeName score),
    activityScore := score }

structure RiskRule where
  risk : String
  severity : String
  confidence : ℚ
  recommendation : String
  dosageAdvice : String
  alternatives : List String
  mechanism : String
deriving DecidableEq, Repr

structure DrugRule where
  gene : String
  description : String
  rules : List (String × RiskRule)
deriving DecidableEq, Repr

/-- RSID_MAP: identifier to (gene, star allele). -/
def RSID_MAP_TABLE : List (String × (String × String)) :=
  [ ("rs3892097", ("CYP2D6", "*4")),
    ("rs5030655", ("CYP2D6", "*6")),
    ("rs1065852", ("CYP2D6", "*10")),
    ("rs28371706", ("CYP2D6", "*17")),
    ("rs28371725", ("CYP2D6", "*41")),
    ("rs4244285", ("CYP2C19", "*2")),
    ("rs4986893", ("CYP2C19", "*3")),
    ("rs12248560", ("CYP2C19", "*17")),
    ("rs1799853", ("CYP2C9", "*2")),
    ("rs1057910", ("CYP2C9", "*3")),
    ("rs4149056", ("SLCO1B1", "*5")),
    ("rs2306283", ("SLCO1B1", "*1b")),
    ("rs1800460", ("TPMT", "*3B")),
    ("rs1142345", ("TPMT", "*3C")),
    ("rs1800462", ("TPMT", "*2")),
    ("rs3918290", ("DPYD", "*2A")),
    ("rs55886062", ("DPYD", "*13")),
    ("rs67376798", ("DPYD", "c.2846A>T")),
    ("rs75017182", ("DPYD", "c.1129-5923C>G")) ]

def RSID_MAP (rsid : String) : Option (String × String) :=
  jsObjGet RSID_MAP_TABLE rsid

def SUPPORTED_DRUGS : List String :=
  ["Codeine", "Warfarin", "Clopidogrel", "Simvastatin", "Azathioprine", "Fluorouracil"]

def SUPPORTED_GENES : List String :=
  ["CYP2D6", "CYP2C19", "CYP2C9", "SLCO1B1", "TPMT", "DPYD"]

/-- DEFAULT_ALLELES: per-gene default allele when no variant is found. -/
def DEFAULT_ALLELES_TABLE : List (String × String) :=
  [ ("CYP2D6", "*1"), ("CYP2C19", "*1"), ("CYP2C9", "*1"),
    ("SLCO1B1", "*1a"), ("TPMT", "*1"), ("DPYD", "Reference") ]

def DEFAULT_ALLELES (gene : String) : Option String :=
  jsObjGet DEFAULT_ALLELES_TABLE gene

/-! DRUG_GENE_RULES: drug-gene interaction rule tables. -/

def codeinePM : RiskRule :=
  { risk := "Ineffective", severity := "High", confidence := 0.95,
    recommendation := "Avoid codeine. Use alternative analgesics not metabolized by CYP2D6 (e.g., morphine, non-opioid analgesics).",
    dosageAdvice := "Do not use codeine",
    alternatives := ["Morphine", "Acetaminophen", "NSAIDs", "Tramadol (with caution)"],
    mechanism := "Codeine is a prodrug that requires CYP2D6-mediated O-demethylation to morphine for analgesic effect. Poor metabolizers have negligible CYP2D6 activity, resulting in minimal conversion to morphine and inadequate pain relief." }

def codeineIM : RiskRule :=
  { risk := "Ineffective", severity := "Moderate", confidence := 0.85,
    recommendation := "Use codeine with caution. May have reduced analgesic effect. Consider alternative analgesics if inadequate response.",
    dosageAdvice := "Use label-recommended dose; monitor for efficacy",
    alternatives := ["Morphine", "Acetaminophen"],
    mechanism := "Intermediate metabolizers have reduced CYP2D6 activity, leading to decreased morphine formation and potentially suboptimal analgesic effect." }

def codeineNM : RiskRule :=
  { risk := "Safe", severity := "Low", confidence := 0.90,
    recommendation := "Use codeine per standard prescribing guidelines.",
    dosageAdvice := "Standard dose as per label",
    alternatives := [],
    mechanism := "Normal metabolizers convert codeine to morphine at expected rates, providing standard analgesic effect." }

def codeineRM : RiskRule :=
  { risk := "Toxic", severity := "High", confidence := 0.90,
    recommendation := "Avoid codeine due to risk of toxicity. Rapid conversion to morphine may cause respiratory depression, especially in children.",
    dosageAdvice := "Do not use codeine",
    alternatives := ["Morphine (reduced dose)", "Acetaminophen", "NSAIDs"],
    mechanism := "Rapid metabolizers have increased CYP2D6 activity resulting in faster and greater conversion of codeine to morphine, increasing the risk of morphine toxicity." }

def codeineURM : RiskRule :=
  { risk := "Toxic", severity := "Critical", confidence := 0.95,
    recommendation := "AVOID codeine. Ultra-rapid metabolism leads to dangerously high morphine levels. Life-threatening toxicity risk, particularly in pediatric patients and breastfeeding mothers.",
    dosageAdvice := "CONTRAINDICATED",
    alternatives := ["Morphine (carefully titrated)", "Acetaminophen", "NSAIDs"],
    mechanism := "Ultra-rapid metabolizers have multiple copies of functional CYP2D6 alleles, leading to excessively rapid conversion of codeine to morphine with dangerous accumulation." }

def codeineRule : DrugRule :=
  { gene := "CYP2D6", description := "CYP2D6 metabolizes codeine to its active form morphine",
    rules := [("PM", codeinePM), ("IM", codeineIM), ("NM", codeineNM), ("RM", codeineRM), ("URM", codeineURM)] }

def warfarinPM : RiskRule :=
  { risk := "Toxic", severity := "Critical", confidence := 0.92,
    recommendation := "Significantly reduce warfarin dose. Consider alternative anticoagulants. Increased bleeding risk.",
    dosageAdvice := "Reduce initial dose by 50-80%. Frequent INR monitoring required.",
    alternatives := ["Direct Oral Anticoagulants (DOACs)", "Apixaban", "Rivaroxaban"],
    mechanism := "Poor metabolizers accumulate S-warfarin due to severely reduced CYP2C9 activity, leading to excessive anticoagulation and bleeding risk." }

def warfarinIM : RiskRule :=
  { risk := "Adjust Dosage", severity := "Moderate", confidence := 0.88,
    recommendation := "Reduce warfarin starting dose. Closer INR monitoring recommended.",
    dosageAdvice := "Reduce initial dose by 20-40%. Monitor INR closely.",
    alternatives := ["Apixaban", "Rivaroxaban"],
    mechanism := "Intermediate metabolizers have reduced CYP2C9 activity, leading to higher S-warfarin levels and increased sensitivity." }

def warfarinNM : RiskRule :=
  { risk := "Safe", severity := "Low", confidence := 0.90,
    recommendation := "Standard warfarin dosing per clinical guidelines.",
    dosageAdvice := "Standard dose with routine INR monitoring",
    alternatives := [],
    mechanism := "Normal CYP2C9 metabolizers clear S-warfarin at expected rates." }

def warfarinRM : RiskRule :=
  { risk := "Adjust Dosage", severity := "Moderate", confidence := 0.80,
    recommendation := "May require higher warfarin doses to achieve therapeutic INR.",
    dosageAdvice := "Standard or increased dose with INR monitoring",
    alternatives := [],
    mechanism := "Rapid metabolizers clear S-warfarin faster, potentially requiring higher doses." }

def warfarinURM : RiskRule :=
  { risk := "Ineffective", severity := "High", confidence := 0.82,
    recommendation := "Warfarin may be ineffective at standard doses. Consider higher doses or alternative anticoagulants.",
    dosageAdvice := "Significantly increased dose likely needed. Close INR monitoring.",
    alternatives := ["Apixaban", "Rivaroxaban", "Edoxaban"],
    mechanism := "Ultra-rapid metabolism leads to very fast clearance of S-warfarin, potentially making standard doses subtherapeutic." }

def warfarinRule : DrugRule :=
  { gene := "CYP2C9", description := "CYP2C9 metabolizes S-warfarin, the more potent enantiomer",
    rules := [("PM", warfarinPM), ("IM", warfarinIM), ("NM", warfarinNM), ("RM", warfarinRM), ("URM", warfarinURM)] }

def clopidogrelPM : RiskRule :=
  { risk := "Ineffective", severity := "Critical", confidence := 0.93,
    recommendation := "Avoid clopidogrel. Use alternative antiplatelet therapy. High risk of cardiovascular events due to lack of drug activation.",
    dosageAdvice := "CONTRAINDICATED - use alternative",
    alternatives := ["Prasugrel", "Ticagrelor"],
    mechanism := "Clopidogrel is a prodrug requiring CYP2C19-mediated bioactivation. Poor metabolizers cannot effectively convert clopidogrel to its active thiol metabolite, resulting in inadequate platelet inhibition." }

def clopidogrelIM : RiskRule :=
  { risk := "Adjust Dosage", severity := "High", confidence := 0.87,
    recommendation := "Consider alternative antiplatelet agent. If clopidogrel is used, consider platelet function testing.",
    dosageAdvice := "Alternative therapy preferred; if used, monitor platelet function",
    alternatives := ["Prasugrel", "Ticagrelor"],
    mechanism := "Intermediate metabolizers have reduced CYP2C19 activity, leading to decreased formation of the active metabolite and potentially suboptimal platelet inhibition." }

def clopidogrelNM : RiskRule :=
  { risk := "Safe", severity := "Low", confidence := 0.90,
    recommendation := "Standard clopidogrel dosing per clinical guidelines.",
    dosageAdvice := "Standard 75mg daily maintenance dose",
    alternatives := [],
    mechanism := "Normal metabolizers adequately convert clopidogrel to its active metabolite." }

def clopidogrelRM : RiskRule :=
  { risk := "Safe", severity := "Low", confidence := 0.88,
    recommendation := "Standard clopidogrel dosing. Enhanced activation may provide improved antiplatelet effect.",
    dosageAdvice := "Standard dose",
    alternatives := [],
    mechanism := "Rapid metabolizers efficiently convert clopidogrel to its active form, providing effective platelet inhibition." }

def clopidogrelURM : RiskRule :=
  { risk := "Adjust Dosage", severity := "Moderate", confidence := 0.78,
    recommendation := "Standard dose effective. Monitor for increased bleeding risk.",
    dosageAdvice := "Standard dose; monitor for bleeding",
    alternatives := [],
    mechanism := "Ultra-rapid metabolizers may generate higher levels of active metabolite, potentially increasing both efficacy and bleeding risk." }

def clopidogrelRule : DrugRule :=
  { gene := "CYP2C19", description := "CYP2C19 activates clopidogrel from prodrug to active metabolite",
    rules := [("PM", clopidogrelPM), ("IM", clopidogrelIM), ("NM", clopidogrelNM), ("RM", clopidogrelRM), ("URM", clopidogrelURM)] }

def simvastatinPM : RiskRule :=
  { risk := "Toxic", severity := "Critical", confidence := 0.91,
    recommendation := "Avoid simvastatin. High risk of myopathy/rhabdomyolysis. Use alternative statins (e.g., pravastatin, rosuvastatin).",
    dosageAdvice := "CONTRAINDICATED at doses >20mg; consider alternatives",
    alternatives := ["Pravastatin", "Rosuvastatin", "Fluvastatin"],
    mechanism := "Decreased SLCO1B1 function leads to reduced hepatic uptake of simvastatin acid, causing increased systemic exposure and elevated risk of skeletal muscle toxicity." }

def simvastatinIM : RiskRule :=
  { risk := "Adjust Dosage", severity := "High", confidence := 0.88,
    recommendation := "Use lower dose simvastatin (≤20mg/day) or consider alternative statin. Monitor for muscle symptoms.",
    dosageAdvice := "Maximum 20mg/day; monitor CK levels",
    alternatives := ["Pravastatin", "Rosuvastatin"],
    mechanism := "Partially decreased SLCO1B1 transporter function leads to moderately increased simvastatin exposure and elevated myopathy risk." }

def simvastatinNM : RiskRule :=
  { risk := "Safe", severity := "Low", confidence := 0.90,
    recommendation := "Standard simvastatin dosing per clinical guidelines.",
    dosageAdvice := "Standard dose as per lipid targets",
    alternatives := [],
    mechanism := "Normal SLCO1B1 function provides adequate hepatic uptake of simvastatin acid." }

def simvastatinRM : RiskRule :=
  { risk := "Safe", severity := "Low", confidence := 0.85,
    recommendation := "Standard dosing effective.",
    dosageAdvice := "Standard dose",
    alternatives := [],
    mechanism := "Normal to enhanced SLCO1B1 transport function." }

def simvastatinURM : RiskRule :=
  { risk := "Safe", severity := "Low", confidence := 0.80,
    recommendation := "Standard dosing effective.",
    dosageAdvice := "Standard dose",
    alternatives := [],
    mechanism := "Enhanced SLCO1B1 transport function with efficient hepatic uptake." }

def simvastatinRule : DrugRule :=
  { gene := "SLCO1B1", description := "SLCO1B1 transports simvastatin acid into hepatocytes for metabolism",
    rules := [("PM", simvastatinPM), ("IM", simvastatinIM), ("NM", simvastatinNM), ("RM", simvastatinRM), ("URM", simvastatinURM)] }

def azathioprinePM : RiskRule :=
  { risk := "Toxic", severity := "Critical", confidence := 0.95,
    recommendation := "Drastically reduce dose (10-fold reduction) or use alternative agent. Life-threatening myelosuppression risk.",
    dosageAdvice := "Reduce to 10% of standard dose. Thrice-weekly dosing.",
    alternatives := ["Mycophenolate mofetil", "Alternative immunosuppressants"],
    mechanism := "Absent TPMT activity causes accumulation of cytotoxic thioguanine nucleotides (TGN), leading to severe and potentially fatal myelosuppression." }

def azathioprineIM : RiskRule :=
  { risk := "Adjust Dosage", severity := "High", confidence := 0.90,
    recommendation := "Reduce starting dose by 30-70%. Monitor CBC weekly for first months.",
    dosageAdvice := "Start at 30-70% of standard dose",
    alternatives := ["Mycophenolate mofetil"],
    mechanism := "Reduced TPMT activity leads to higher TGN levels with increased risk of dose-dependent myelosuppression." }

def azathioprineNM : RiskRule :=
  { risk := "Safe", severity := "Low", confidence := 0.90,
    recommendation := "Standard azathioprine dosing. Routine monitoring recommended.",
    dosageAdvice := "Standard dose (2-3 mg/kg/day)",
    alternatives := [],
    mechanism := "Normal TPMT activity provides adequate metabolism of thiopurines." }

def azathioprineRM : RiskRule :=
  { risk := "Adjust Dosage", severity := "Moderate", confidence := 0.78,
    recommendation := "May require higher doses. Monitor for therapeutic efficacy.",
    dosageAdvice := "Standard or increased dose with efficacy monitoring",
    alternatives := [],
    mechanism := "Increased TPMT activity leads to greater inactivation of thiopurines, potentially reducing therapeutic effect." }

def azathioprineURM : RiskRule :=
  { risk := "Ineffective", severity := "High", confidence := 0.80,
    recommendation := "Standard doses may be ineffective. Consider higher doses or alternative immunosuppressants.",
    dosageAdvice := "Increased dose may be needed; monitor TGN levels",
    alternatives := ["Mycophenolate mofetil", "Alternative immunosuppressants"],
    mechanism := "Ultra-rapid TPMT activity excessively inactivates azathioprine, leading to subtherapeutic TGN levels." }

def azathioprineRule : DrugRule :=
  { gene := "TPMT", description := "TPMT methylates thiopurine drugs; reduced activity causes toxic metabolite accumulation",
    rules := [("PM", azathioprinePM), ("IM", azathioprineIM), ("NM", azathioprineNM), ("RM", azathioprineRM), ("URM", azathioprineURM)] }

def fluorouracilPM : RiskRule :=
  { risk := "Toxic", severity := "Critical", confidence := 0.95,
    recommendation := "AVOID fluorouracil and capecitabine. Complete DPD deficiency causes life-threatening toxicity.",
    dosageAdvice := "CONTRAINDICATED",
    alternatives := ["Alternative chemotherapy regimens (consult oncologist)"],
    mechanism := "Complete DPD deficiency prevents catabolism of fluorouracil, causing massive accumulation of cytotoxic metabolites leading to severe mucositis, myelosuppression, neurotoxicity, and potentially death." }

def fluorouracilIM : RiskRule :=
  { risk := "Adjust Dosage", severity := "Critical", confidence := 0.92,
    recommendation := "Reduce fluorouracil dose by at least 50%. Close monitoring with dose titration based on toxicity.",
    dosageAdvice := "Reduce to 25-50% of standard dose",
    alternatives := ["Dose-adjusted regimen with TDM"],
    mechanism := "Partial DPD deficiency leads to reduced fluorouracil clearance and increased exposure to cytotoxic metabolites." }

def fluorouracilNM : RiskRule :=
  { risk := "Safe", severity := "Low", confidence := 0.90,
    recommendation := "Standard fluorouracil dosing per oncology protocol.",
    dosageAdvice := "Standard dose per BSA calculation",
    alternatives := [],
    mechanism := "Normal DPD activity provides expected fluorouracil catabolism." }

def fluorouracilRM : RiskRule :=
  { risk := "Safe", severity := "Low", confidence := 0.82,
    recommendation := "Standard dosing. Monitor for therapeutic efficacy.",
    dosageAdvice := "Standard dose; consider TDM",
    alternatives := [],
    mechanism := "Enhanced DPD activity with adequate drug catabolism." }

def fluorouracilURM : RiskRule :=
  { risk := "Ineffective", severity := "High", confidence := 0.78,
    recommendation := "Fluorouracil may be rapidly inactivated. Consider dose increase with therapeutic drug monitoring or alternative agents.",
    dosageAdvice := "Higher doses may be needed; TDM recommended",
    alternatives := ["Alternative chemotherapy regimens"],
    mechanism := "Ultra-rapid DPD activity may excessively catabolize fluorouracil before therapeutic effect." }

def fluorouracilRule : DrugRule :=
  { gene := "DPYD", description := "DPD (encoded by DPYD) catabolizes >80% of administered fluorouracil",
    rules := [("PM", fluorouracilPM), ("IM", fluorouracilIM), ("NM", fluorouracilNM), ("RM", fluorouracilRM), ("URM", fluorouracilURM)] }

/-- DRUG_GENE_RULES as a lookup from drug name to its rule table. -/
def DRUG_GENE_RULES_TABLE : List (String × DrugRule) :=
  [ ("Codeine", codeineRule), ("Warfarin", warfarinRule),
    ("Clopidogrel", clopidogrelRule), ("Simvastatin", simvastatinRule),
    ("Azathioprine", azathioprineRule), ("Fluorouracil", fluorouracilRule) ]

def DRUG_GENE_RULES (drug : String) : Option DrugRule :=
  jsObjGet DRUG_GENE_RULES_TABLE drug

/-!  VCF parser (vcfParser.js).  -/

/-- The line list every vcfParser entry point works on: split on newline,
keeping only lines whose trimmed form is non-empty. -/
def vcfLines (content : String) : List String :=
  (jsSplitOn content "\n").filter (fun l => !(jsTrim l).isEmpty)

structure ValidationResult where
  valid : Bool
  errors : List String
deriving DecidableEq, Repr

/-- Error text of the missing-fileformat check. -/
def fileformatErr : String :=
  "Missing ##fileformat=VCF header. File may not be a valid VCF v4.2 file."

/-- Error text of the missing column-header check. -/
def chromErr : String := "Missing #CHROM header line"

/-- Error text of the no-data check. -/
def noDataErr : String := "No variant data found in VCF file"

/-- validateVCF: structural sanity check of the raw input text.  An empty
file returns early with a single error; otherwise the three remaining
checks accumulate their failures in order. -/
def validateVCF (content : String) : ValidationResult :=
  let lines := vcfLines content
  if lines.length = 0 then
    { valid := false, errors := ["Empty VCF file"] }
  else
    let e1 : List String :=
      if lines.any (fun l => jsStartsWith l ("##fileformat=VCF")) then []
      else [fileformatErr]
    let e2 : List String :=
      if (lines.find? (fun l => jsStartsWith l ("#CHROM"))).isSome then []
      else [chromErr]
    let e3 : List String :=
      if (lines.filter (fun l => !jsStartsWith l ("#"))).length = 0 then
        [noDataErr]
      else []
    let errors := e1 ++ e2 ++ e3
    { valid := errors.length = 0, errors := errors }

/-- One INFO entry: `KEY=VALUE` when an equals sign occurs past position 0
(key before the first equals, value everything after it, both trimmed),
otherwise the whole trimmed field as a bare flag with value true. -/
def parseInfoEntry (field : String) : String × JVal :=
  match jsSplitOn field "=" with
  | [] => (jsTrim field, JVal.jtrue)
  | [_] => (jsTrim field, JVal.jtrue)
  | k :: rest =>
    if k.isEmpty then (jsTrim field, JVal.jtrue)
    else (jsTrim k, JVal.jstr (jsTrim (String.intercalate "=" rest)))

/-- parseInfo: the INFO column as an association list (empty for a falsy
or "." INFO string); lookups use jsObjGet so later keys overwrite. -/
def parseInfo (infoStr : String) : List (String × JVal) :=
  if infoStr.isEmpty || infoStr = "." then []
  else (jsSplitOn infoStr ";").map parseInfoEntry

/-- determineZygosity, extraction half: the GT subfield of the sample
column, or none whenever the code would return Unknown before examining
the genotype value. -/
def gtField (cols : List String) : Option String :=
  if cols.length < 10 then none
  else
    let format := cols.getD 8 ""
    let sample := cols.getD 9 ""
    if format.isEmpty || sample.isEmpty then none
    else
      let formatFields := jsSplitOn format ":"
      let sampleFields := jsSplitOn sample ":"
      match jsIndexOf formatFields "GT" with
      | none => none
      | some gtIndex =>
        if sampleFields.length ≤ gtIndex then none
        else some (sampleFields.getD gtIndex "")

/-- determineZygosity, classification half: split the genotype value on
slash if one occurs, else on pipe, and compare the two parts as strings. -/
def classifyGT (gt : String) : String :=
  let separator := if jsIncludes gt "/" then "/" else "|"
  let alleles := jsSplitOn gt separator
  if alleles.length ≠ 2 then "Unknown"
  else if alleles.getD 0 "" == alleles.getD 1 "" then
    if alleles.getD 0 "" == "0" then "Homozygous Reference"
    else "Homozygous Alternate"
  else "Heterozygous"

/-- determineZygosity: genotype-based zygosity of one data row. -/
def determineZygosity (cols : List String) : String :=
  match gtField cols with
  | none => "Unknown"
  | some gt => classifyGT gt

/-- VariantRecord as pushed by parseVCF.  The gene field stores the string
coercion of the mapped gene (exactly the form in which every consumer --
an object key in groupVariantsByGene -- reads it); quality keeps the raw
column text since parseFloat output is never consumed by the pipeline. -/
structure Variant where
  chromosome : String
  position : Option Int
  rsid : Option String
  reference : String
  alternate : String
  quality : Option String
  filter : String
  gene : String
  starAllele : Option String
  info : List (String × JVal)
  zygosity : String
deriving DecidableEq, Repr

/-- JavaScript parseInt for the position column: trim, optional sign,
then the longest leading digit run; none models NaN. -/
def jsParseInt (s : String) : Option Int :=
  let t := s.toList.dropWhile Char.isWhitespace
  let core : List Char × Bool :=
    match t with
    | '-' :: rest => (rest, true)
    | '+' :: rest => (rest, false)
    | _ => (t, false)
  let digits := core.1.takeWhile (fun c => c.isDigit)
  if digits.isEmpty then none
  else
    let n := digits.foldl (fun acc c => acc * 10 + (c.toNat - 48)) (0 : Nat)
    some (if core.2 then -(n : Int) else (n : Int))

/-- The tab-separated columns of a data line. -/
def lineCols (line : String) : List String := jsSplitOn line "\t"

/-- The parsed INFO column of a data line. -/
def lineInfo (line : String) : List (String × JVal) :=
  parseInfo ((lineCols line).getD 7 "")

/-- `parsedInfo.GENE || null` of a data line. -/
def lineGene (line : String) : Option JVal :=
  jsNorm (jsObjGet (lineInfo line) "GENE")

/-- `parsedInfo.STAR || null` of a data line. -/
def lineStar (line : String) : Option JVal :=
  jsNorm (jsObjGet (lineInfo line) "STAR")

/-- `parsedInfo.RSID || id || null` of a data line. -/
def lineRsid (line : String) : Option JVal :=
  jsOr (jsObjGet (lineInfo line) "RSID") (some (JVal.jstr ((lineCols line).getD 2 "")))

/-- `RSID_MAP[rsid]` guarded by rsid truthiness. -/
def lineRsidMapping (line : String) : Option (String × String) :=
  match lineRsid line with
  | none => none
  | some r => RSID_MAP (jvalToString r)

/-- mappedGene after the rsID branch: the INFO gene if truthy, else the
reference-table gene when the identifier matched. -/
def lineMappedGene (line : String) : Option JVal :=
  match lineRsidMapping line with
  | none => lineGene line
  | some m => jsOr (lineGene line) (some (JVal.jstr m.1))

/-- mappedAllele after the rsID branch. -/
def lineMappedAllele (line : String) : Option JVal :=
  match lineRsidMapping line with
  | none => lineStar line
  | some m => jsOr (lineStar line) (some (JVal.jstr m.2))

/-- `SUPPORTED_GENES.includes(mappedGene)`: strict equality, so a
non-string mapped gene is never supported. -/
def lineGeneSupported (line : String) : Bool :=
  match lineMappedGene line with
  | some (JVal.jstr g) => SUPPORTED_GENES.contains g
  | _ => false

/-- isPGx flag of the extraction loop. -/
def lineIsPGx (line : String) : Bool :=
  (lineRsidMapping line).isSome || lineGeneSupported line

/-- Loop body of parseVCF for one data line: the pushed VariantRecord, or
none when the line is dropped (fewer than 8 columns) or judged not
pharmacogenomically relevant. -/
def extractVariant (line : String) : Option Variant :=
  let cols := lineCols line
  if cols.length < 8 then none
  else if lineIsPGx line && (lineMappedGene line).isSome then
    some
      { chromosome := cols.getD 0 "",
        position := jsParseInt (cols.getD 1 ""),
        rsid := (lineRsid line).map jvalToString,
        reference := cols.getD 3 "",
        alternate := cols.getD 4 "",
        quality := if cols.getD 5 "" = "." then none else some (cols.getD 5 ""),
        filter := cols.getD 6 "",
        gene := jvalToString ((lineMappedGene line).getD (JVal.jstr "")),
        starAllele := (lineMappedAllele line).map jvalToString,
        info := lineInfo line,
        zygosity := determineZygosity cols }
  else none

structure ParseResult where
  variants : List Variant
  fileformat : String
  source : String
  totalVariants : Nat
  pharmacogenomicVariants : Nat
  genes : List String
deriving DecidableEq, Repr

/-- Loop body of parseVCF over the accumulated result. -/
def parseVCFStep (acc : ParseResult) (line : String) : ParseResult :=
  if jsStartsWith line ("##fileformat=") then
    { acc with fileformat := (jsSplitOn line "=").getD 1 "" }
  else if jsStartsWith line ("##source=") then
    { acc with source := (jsSplitOn line "=").getD 1 "" }
  else if jsStartsWith line ("#") then acc
  else if (lineCols line).length < 8 then acc
  else
    let acc := { acc with totalVariants := acc.totalVariants + 1 }
    match extractVariant line with
    | none => acc
    | some v =>
      { acc with
        variants := acc.variants ++ [v],
        pharmacogenomicVariants := acc.pharmacogenomicVariants + 1,
        genes := if acc.genes.contains v.gene then acc.genes else acc.genes ++ [v.gene] }

/-- parseVCF: variants in input order plus aggregate metadata. -/
def parseVCF (content : String) : ParseResult :=
  (vcfLines content).foldl parseVCFStep
    { variants := [], fileformat := "", source := "",
      totalVariants := 0, pharmacogenomicVariants := 0, genes := [] }

/-- groupVariantsByGene: per-gene ordered list of variants; the object the
code builds maps each gene key to exactly the in-order sublist of variants
carrying that gene, i.e. a filter. -/
def groupVariantsByGene (variants : List Variant) (gene : String) : List Variant :=
  variants.filter (fun v => v.gene == gene)

/-!  Risk prediction engine (riskPredictor.js).  -/

/-- normalizeDrugName: first supported drug whose lowercased name equals
the trimmed, lowercased request. -/
def normalizeDrugName (name : String) : Option String :=
  SUPPORTED_DRUGS.find? (fun d => jsToLower d == jsToLower (jsTrim name))

structure AllelePair where
  allele1 : String
  allele2 : String
  allele1Function : String
  allele2Function : String
deriving DecidableEq, Repr

/-- getAlleleDescription: the allele annotated with its function when the
table knows it. -/
def getAlleleDescription (gene allele : String) : String :=
  match ALLELE_FUNCTIONS gene allele with
  | some f => allele ++ " (" ++ f ++ ")"
  | none => allele

/-- determineAlleles: resolve the two alleles of a gene from its variant
list, inspecting at most the first two variants. -/
def determineAlleles (gene : String) (variants : List Variant) : AllelePair :=
  let defaultAllele := jsOrStr (DEFAULT_ALLELES gene) "*1"
  match variants with
  | [] =>
    { allele1 := defaultAllele, allele2 := defaultAllele,
      allele1Function := "Normal Function (assumed)",
      allele2Function := "Normal Function (assumed)" }
  | primary :: rest =>
    let base : String × String :=
      if primary.zygosity == "Homozygous Alternate" then
        (jsOrStr primary.starAllele defaultAllele, jsOrStr primary.starAllele defaultAllele)
      else if primary.zygosity == "Heterozygous" then
        (defaultAllele, jsOrStr primary.starAllele defaultAllele)
      else
        (defaultAllele,
          match rest with
          | v2 :: _ => jsOrStr v2.starAllele defaultAllele
          | [] => defaultAllele)
    let allele2 :=
      if rest.length > 0 && primary.zygosity == "Heterozygous" then
        match rest with
        | v2 :: _ => jsOrStr v2.starAllele base.2
        | [] => base.2
      else base.2
    { allele1 := base.1, allele2 := allele2,
      allele1Function := getAlleleDescription gene base.1,
      allele2Function := getAlleleDescription gene allele2 }

/-- `rule.rules[abbrev] || rule.rules["NM"]` of the dispatch. -/
def lookupRiskRule (rule : DrugRule) (abbr : String) : Option RiskRule :=
  jsOrOpt (jsObjGet rule.rules abbr) (jsObjGet rule.rules "NM")

/-- Rule dispatch for one drug name and phenotype abbreviation: the
drug-gene table line followed by the phenotype lookup with NM fallback. -/
def dispatchRiskRule (drug abbr : String) : Option RiskRule :=
  (DRUG_GENE_RULES drug).bind (fun rule => lookupRiskRule rule abbr)

/-- Variant echo as mapped into a result entry. -/
structure VariantEcho where
  rsid : Option String
  chromosome : String
  position : Option Int
  reference : String
  alternate : String
  starAllele : Option String
  zygosity : String
deriving DecidableEq, Repr

def Variant.toEcho (v : Variant) : VariantEcho :=
  { rsid := v.rsid, chromosome := v.chromosome, position := v.position,
    reference := v.reference, alternate := v.alternate,
    starAllele := v.starAllele, zygosity := v.zygosity }

structure PGxProfile where
  diplotype : String
  phenotype : String
  abbreviation : String
  activityScore : ℚ
  allele1 : String
  allele2 : String
  allele1Function : String
  allele2Function : String
deriving DecidableEq, Repr

structure RiskAssessment where
  riskCategory : String
  severity : String
  confidenceScore : ℚ
deriving DecidableEq, Repr

structure ClinicalRecommendation where
  recommendation : String
  dosageAdvice : String
  alternatives : List String
  mechanism : String
deriving DecidableEq, Repr

/-- Successful per-drug analysis entry. -/
structure OkResult where
  drug : String
  gene : String
  geneDescription : String
  variants : List VariantEcho
  pharmacogenomicProfile : PGxProfile
  riskAssessment : RiskAssessment
  clinicalRecommendation : ClinicalRecommendation
deriving DecidableEq, Repr

/-- Error entry pushed for an unsupported drug. -/
structure ErrResult where
  drug : String
  error : String
  risk : String
  severity : String
  confidence : ℚ
deriving DecidableEq, Repr

inductive DrugResult where
  | err (e : ErrResult)
  | ok (r : OkResult)
deriving DecidableEq, Repr

/-- Loop body of predictRisks for one requested drug: zero or one pushed
entries.  The two empty-list branches are the `continue` for a supported
name missing from DRUG_GENE_RULES and the rule lookup yielding nothing;
both are proved unreachable below. -/
def processDrug (geneGroups : String → List Variant) (drugName : String) :
    List DrugResult :=
  match normalizeDrugName drugName with
  | none =>
    [DrugResult.err
      { drug := drugName,
        error := "Unsupported drug: " ++ drugName,
        risk := "Unknown", severity := "Unknown", confidence := 0 }]
  | some normalizedDrug =>
    match DRUG_GENE_RULES normalizedDrug with
    | none => []
    | some rule =>
      let gene := rule.gene
      let geneVariants := geneGroups gene
      let alleles := determineAlleles gene geneVariants
      let phenotypeResult := getPhenotype gene alleles.allele1 alleles.allele2
      match lookupRiskRule rule phenotypeResult.abbreviation with
      | none => []
      | some riskRule =>
        [DrugResult.ok
          { drug := normalizedDrug,
            gene := gene,
            geneDescription := rule.description,
            variants := geneVariants.map Variant.toEcho,
            pharmacogenomicProfile :=
              { diplotype := phenotypeResult.diplotype,
                phenotype := phenotypeResult.phenotype,
                abbreviation := phenotypeResult.abbreviation,
                activityScore := phenotypeResult.activityScore,
                allele1 := alleles.allele1,
                allele2 := alleles.allele2,
                allele1Function := alleles.allele1Function,
                allele2Function := alleles.allele2Function },
            riskAssessment :=
              { riskCategory := riskRule.risk,
                severity := riskRule.severity,
                confidenceScore := riskRule.confidence },
            clinicalRecommendation :=
              { recommendation := riskRule.recommendation,
                dosageAdvice := riskRule.dosageAdvice,
                alternatives := riskRule.alternatives,
                mechanism := riskRule.mechanism } }]

/-- predictRisks: one pass over the requested drug list, appending each
drug's pushed entries in order. -/
def predictRisks (variants : List Variant) (drugs : List String) :
    List DrugResult :=
  let geneGroups := groupVariantsByGene variants
  (drugs.map (processDrug geneGroups)).flatten

/-!  Explanation generator (llmExplainer.js), the part claim C10 is about. -/

/-- getVariantClassification: per-variant star-allele classification.  The
input is the starAllele field of a result variant (null or a string); a
falsy input (null or empty) returns unknown significance. -/
def getVariantClassification (allele : Option String) : String :=
  match allele with
  | none => "unknown significance"
  | some a =>
    if a.isEmpty then "unknown significance"
    else if (["*3", "*4", "*5", "*6", "*2A", "*13"].contains a)
        || jsIncludes a "No Function" then "loss-of-function"
    else if (["*9", "*10", "*17", "*41", "*2", "*3", "*5", "*15"].contains a)
        || jsIncludes a "Decreased" then "decreased-function"
    else if jsIncludes a "xN" || a == "*17" then "gain-of-function"
    else "functional"

/-!  Helper lemmas shared by several claims.  -/

/-- Rank of the five metabolizer phenotype names, in increasing
metabolic-activity order. -/
def phenoRank : String → ℕ
  | "Poor Metabolizer" => 0
  | "Intermediate Metabolizer" => 1
  | "Normal Metabolizer" => 2
  | "Rapid Metabolizer" => 3
  | _ => 4

theorem getAlleleScore_cases (g a : String) :
    getAlleleScore g a = 0 ∨ getAlleleScore g a = 1/2 ∨
    getAlleleScore g a = 1 ∨ getAlleleScore g a = 3/2 := by
  rcases h : ALLELE_FUNCTIONS g a with _ | f
  · simp [getAlleleScore, h]
  · simp only [getAlleleScore, h]
    split_ifs <;> norm_num

theorem getAlleleScore_nonneg (g a : String) : 0 ≤ getAlleleScore g a := by
  rcases getAlleleScore_cases g a with h | h | h | h <;> rw [h] <;> norm_num

theorem getAlleleScore_le (g a : String) : getAlleleScore g a ≤ 3/2 := by
  rcases getAlleleScore_cases g a with h | h | h | h <;> rw [h] <;> norm_num

theorem activityScore_nonneg (g a1 a2 : String) : 0 ≤ activityScore g a1 a2 := by
  have h1 := getAlleleScore_nonneg g a1
  have h2 := getAlleleScore_nonneg g a2
  unfold activityScore
  linarith

/-- phenotypeName is monotone in the score on the nonnegative domain. -/
theorem phenotypeName_mono (s t : ℚ) (hs : 0 ≤ s) (hst : s ≤ t) :
    phenoRank (phenotypeName s) ≤ phenoRank (phenotypeName t) := by
  rcases eq_or_lt_of_le hs with h0 | h0
  · unfold phenotypeName
    rw [if_pos h0.symm]
    have h : phenoRank ("Poor Metabolizer") = 0 := rfl
    rw [h]
    exact Nat.zero_le _
  · unfold phenotypeName
    rw [if_neg (ne_of_gt h0)]
    split_ifs <;> first | decide | linarith

/-!  Claims.  -/

/-- C9: for any two alleles (known or unknown) of any gene, each allele
contributes exactly one of 0, 0.5, 1.0, 1.5 to the activity score, an
allele absent from the gene function table contributes 1.0, and the
activity score always lies in [0, 3]. -/
theorem claim_C9 (g a1 a2 : String) :
    (getAlleleScore g a1 = 0 ∨ getAlleleScore g a1 = 1/2 ∨
      getAlleleScore g a1 = 1 ∨ getAlleleScore g a1 = 3/2) ∧
    (getAlleleScore g a2 = 0 ∨ getAlleleScore g a2 = 1/2 ∨
      getAlleleScore g a2 = 1 ∨ getAlleleScore g a2 = 3/2) ∧
    (ALLELE_FUNCTIONS g a1 = none → getAlleleScore g a1 = 1) ∧
    0 ≤ activityScore g a1 a2 ∧ activityScore g a1 a2 ≤ 3 := by
  refine ⟨getAlleleScore_cases g a1, getAlleleScore_cases g a2, ?_, activityScore_nonneg g a1 a2, ?_⟩
  · intro h
    unfold getAlleleScore
    rw [h]
  · have h1 := getAlleleScore_le g a1
    have h2 := getAlleleScore_le g a2
    unfold activityScore
    linarith

/-- Witness for C9 at the unknown CYP2D6 allele *99 paired with *4. -/
theorem claim_C9_witness :
    ALLELE_FUNCTIONS ("CYP2D6") ("*99") = none ∧
    getAlleleScore ("CYP2D6") ("*99") = 1 ∧
    0 ≤ activityScore ("CYP2D6") ("*99") ("*4") ∧
    activityScore ("CYP2D6") ("*99") ("*4") ≤ 3 :=
  ⟨by decide, (claim_C9 ("CYP2D6") ("*99") ("*4")).2.2.1 (by decide),
    (claim_C9 ("CYP2D6") ("*99") ("*4")).2.2.2.1,
    (claim_C9 ("CYP2D6") ("*99") ("*4")).2.2.2.2⟩

/-- C2: for every gene and allele pair the phenotype is the value of the
lower-boundary-inclusive threshold table at the activity score, and it is
a monotonically non-decreasing function of the activity score. -/
theorem claim_C2 (g a1 a2 : String) :
    (getPhenotype g a1 a2).phenotype = phenotypeName (activityScore g a1 a2) ∧
    (activityScore g a1 a2 = 0 →
      (getPhenotype g a1 a2).phenotype = "Poor Metabolizer") ∧
    (0 < activityScore g a1 a2 ∧ activityScore g a1 a2 ≤ 1 →
      (getPhenotype g a1 a2).phenotype = "Intermediate Metabolizer") ∧
    (1 < activityScore g a1 a2 ∧ activityScore g a1 a2 ≤ 2 →
      (getPhenotype g a1 a2).phenotype = "Normal Metabolizer") ∧
    (2 < activityScore g a1 a2 ∧ activityScore g a1 a2 ≤ 5/2 →
      (getPhenotype g a1 a2).phenotype = "Rapid Metabolizer") ∧
    (5/2 < activityScore g a1 a2 →
      (getPhenotype g a1 a2).phenotype = "Ultra-Rapid Metabolizer") ∧
    (∀ g2 b1 b2, activityScore g a1 a2 ≤ activityScore g2 b1 b2 →
      phenoRank (getPhenotype g a1 a2).phenotype ≤
        phenoRank (getPhenotype g2 b1 b2).phenotype) := by
  have hp : (getPhenotype g a1 a2).phenotype = phenotypeName (activityScore g a1 a2) := rfl
  refine ⟨hp, ?_, ?_, ?_, ?_, ?_, ?_⟩
  · intro h
    rw [hp]
    unfold phenotypeName
    rw [if_pos h]
  · rintro ⟨h1, h2⟩
    rw [hp]
    unfold phenotypeName
    rw [if_neg (ne_of_gt h1), if_pos h2]
  · rintro ⟨h1, h2⟩
    rw [hp]
    unfold phenotypeName
    rw [if_neg (by positivity : activityScore g a1 a2 ≠ 0), if_neg (by linarith : ¬ activityScore g a1 a2 ≤ 1), if_pos h2]
  · rintro ⟨h1, h2⟩
    rw [hp]
    unfold phenotypeName
    rw [if_neg (by positivity : activityScore g a1 a2 ≠ 0),
      if_neg (by linarith : ¬ activityScore g a1 a2 ≤ 1),
      if_neg (by linarith : ¬ activityScore g a1 a2 ≤ 2), if_pos h2]
  · intro h1
    rw [hp]
    unfold phenotypeName
    rw [if_neg (by positivity : activityScore g a1 a2 ≠ 0),
      if_neg (by linarith : ¬ activityScore g a1 a2 ≤ 1),
      if_neg (by linarith : ¬ activityScore g a1 a2 ≤ 2),
      if_neg (by linarith : ¬ activityScore g a1 a2 ≤ 5/2)]
  · intro g2 b1 b2 h
    have h2 : (getPhenotype g2 b1 b2).phenotype = phenotypeName (activityScore g2 b1 b2) := rfl
    rw [hp, h2]
    exact phenotypeName_mono _ _ (activityScore_nonneg g a1 a2) h

/-- Witness for C2: the CYP2D6 *4/*10 pair has score 0.5, classified
Intermediate Metabolizer, and ranks no higher than the *1/*1 pair. -/
theorem claim_C2_witness :
    (0 < activityScore ("CYP2D6") ("*4") ("*10") ∧
      activityScore ("CYP2D6") ("*4") ("*10") ≤ 1) ∧
    (getPhenotype ("CYP2D6") ("*4") ("*10")).phenotype = "Intermediate Metabolizer" ∧
    phenoRank (getPhenotype ("CYP2D6") ("*4") ("*10")).phenotype ≤
      phenoRank (getPhenotype ("CYP2D6") ("*1") ("*1")).phenotype := by
  have g4 : getAlleleScore ("CYP2D6") ("*4") = 0 := rfl
  have g10 : getAlleleScore ("CYP2D6") ("*10") = 1/2 := rfl
  have g1 : getAlleleScore ("CYP2D6") ("*1") = 1 := rfl
  have hs : activityScore ("CYP2D6") ("*4") ("*10") = 1/2 := by
    unfold activityScore
    rw [g4, g10]
    norm_num
  have hs2 : activityScore ("CYP2D6") ("*1") ("*1") = 2 := by
    unfold activityScore
    rw [g1]
    norm_num
  have hlo : 0 < activityScore ("CYP2D6") ("*4") ("*10") := by rw [hs]; norm_num
  have hhi : activityScore ("CYP2D6") ("*4") ("*10") ≤ 1 := by rw [hs]; norm_num
  exact ⟨⟨hlo, hhi⟩,
    (claim_C2 ("CYP2D6") ("*4") ("*10")).2.2.1 ⟨hlo, hhi⟩,
    (claim_C2 ("CYP2D6") ("*4") ("*10")).2.2.2.2.2.2 ("CYP2D6") ("*1") ("*1")
      (by rw [hs, hs2]; norm_num)⟩

/-- Well-formedness of a risk rule demanded by C3: confidence in [0,1]
and severity drawn from the four-value enum. -/
def riskRuleWF (r : RiskRule) : Prop :=
  0 ≤ r.confidence ∧ r.confidence ≤ 1 ∧
  (r.severity = "Low" ∨ r.severity = "Moderate" ∨
    r.severity = "High" ∨ r.severity = "Critical")

instance (r : RiskRule) : Decidable (riskRuleWF r) := by
  unfold riskRuleWF
  infer_instance

/-- C3: for every supported drug and every phenotype abbreviation, rule
dispatch (phenotype entry with NM fallback) yields a defined risk rule
with confidence in [0,1] and an enum severity. -/
theorem claim_C3 :
    ∀ d ∈ SUPPORTED_DRUGS, ∀ p ∈ (["PM", "IM", "NM", "RM", "URM"] : List String),
    ∃ r : RiskRule, dispatchRiskRule d p = some r ∧ riskRuleWF r := by
  intro d hd p hp
  simp only [SUPPORTED_DRUGS] at hd
  fin_cases hd <;> fin_cases hp <;>
    refine ⟨_, rfl, ?_, ?_, ?_⟩ <;>
    first
      | decide
      | norm_num [codeinePM, codeineIM, codeineNM, codeineRM, codeineURM,
          warfarinPM, warfarinIM, warfarinNM, warfarinRM, warfarinURM,
          clopidogrelPM, clopidogrelIM, clopidogrelNM, clopidogrelRM, clopidogrelURM,
          simvastatinPM, simvastatinIM, simvastatinNM, simvastatinRM, simvastatinURM,
          azathioprinePM, azathioprineIM, azathioprineNM, azathioprineRM, azathioprineURM,
          fluorouracilPM, fluorouracilIM, fluorouracilNM, fluorouracilRM, fluorouracilURM]

/-- Witness for C3 at Codeine and PM. -/
theorem claim_C3_witness :
    ("Codeine" ∈ SUPPORTED_DRUGS) ∧
    ("PM" ∈ (["PM", "IM", "NM", "RM", "URM"] : List String)) ∧
    ∃ r : RiskRule, dispatchRiskRule ("Codeine") ("PM") = some r ∧ riskRuleWF r :=
  ⟨by decide, by decide, claim_C3 ("Codeine") (by decide) ("PM") (by decide)⟩

/-- C10: the explanation generator classifies a star allele as
gain-of-function only when it contains xN, and *17 is always classified
decreased-function because the decreased-function membership test, which
lists *17, runs before the gain-of-function test. -/
theorem claim_C10 :
    (∀ a : Option String, getVariantClassification a = "gain-of-function" →
      ∃ s, a = some s ∧ jsIncludes s ("xN") = true) ∧
    getVariantClassification (some ("*17")) = "decreased-function" := by
  constructor
  · intro a h
    cases a with
    | none => exact absurd h (by decide)
    | some s =>
      refine ⟨s, rfl, ?_⟩
      simp only [getVariantClassification] at h
      split_ifs at h with h0 h1 h2 h3
      · exact absurd h (by decide)
      · exact absurd h (by decide)
      · exact absurd h (by decide)
      · have h3x : jsIncludes s ("xN") = true ∨ s = "*17" := by
          simpa using h3
        rcases h3x with hx | h17
        · exact hx
        · exfalso
          apply h2
          subst h17
          decide
      · exact absurd h (by decide)
  · decide

/-- Witness for C10: the *1xN allele is classified gain-of-function and
does contain xN. -/
theorem claim_C10_witness :
    getVariantClassification (some ("*1xN")) = "gain-of-function" ∧
    ∃ s, (some ("*1xN") : Option String) = some s ∧ jsIncludes s ("xN") = true :=
  ⟨by decide, claim_C10.1 (some ("*1xN")) (by decide)⟩

/-!  Structural lemmas about predictRisks, shared by claims C1 and C4.  -/

theorem DRUG_GENE_RULES_cases (d : String) (rule : DrugRule)
    (h : DRUG_GENE_RULES d = some rule) :
    rule = codeineRule ∨ rule = warfarinRule ∨ rule = clopidogrelRule ∨
    rule = simvastatinRule ∨ rule = azathioprineRule ∨ rule = fluorouracilRule := by
  unfold DRUG_GENE_RULES jsObjGet at h
  rcases ho : DRUG_GENE_RULES_TABLE.reverse.find? (fun p => p.1 == d) with _ | p
  · rw [ho] at h
    simp at h
  · rw [ho] at h
    simp at h
    have hp : p ∈ DRUG_GENE_RULES_TABLE.reverse := List.mem_of_find?_eq_some ho
    rw [List.mem_reverse] at hp
    simp only [DRUG_GENE_RULES_TABLE, List.mem_cons, List.not_mem_nil, or_false] at hp
    rcases hp with hp | hp | hp | hp | hp | hp <;> subst hp <;> simp_all

theorem lookupRiskRule_isSome (rule : DrugRule) (ab : String)
    (h : (jsObjGet rule.rules ("NM")).isSome) :
    (lookupRiskRule rule ab).isSome := by
  unfold lookupRiskRule jsOrOpt
  rcases jsObjGet rule.rules ab with _ | r
  · exact h
  · simp

theorem rules_NM_isSome (d : String) (rule : DrugRule)
    (h : DRUG_GENE_RULES d = some rule) :
    (jsObjGet rule.rules ("NM")).isSome := by
  rcases DRUG_GENE_RULES_cases d rule h with hr | hr | hr | hr | hr | hr <;>
    subst hr <;> rfl

/-- Every requested drug contributes exactly one entry: the two continue
branches of the loop body are unreachable. -/
theorem processDrug_length_one (g : String → List Variant) (d : String) :
    (processDrug g d).length = 1 := by
  unfold processDrug
  rcases hn : normalizeDrugName d with _ | nd
  · simp only [hn]
    rfl
  · have hmem : nd ∈ SUPPORTED_DRUGS :=
      List.mem_of_find?_eq_some hn
    have hrs : (DRUG_GENE_RULES nd).isSome := by
      simp only [SUPPORTED_DRUGS] at hmem
      fin_cases hmem <;> rfl
    rcases hr : DRUG_GENE_RULES nd with _ | rule
    · rw [hr] at hrs
      simp at hrs
    · have hl := lookupRiskRule_isSome rule
        (getPhenotype rule.gene (determineAlleles rule.gene (g rule.gene)).allele1
          (determineAlleles rule.gene (g rule.gene)).allele2).abbreviation
        (rules_NM_isSome nd rule hr)
      simp only [hn, hr]
      rcases hlk : lookupRiskRule rule
          (getPhenotype rule.gene (determineAlleles rule.gene (g rule.gene)).allele1
            (determineAlleles rule.gene (g rule.gene)).allele2).abbreviation with _ | rr
      · rw [hlk] at hl
        simp at hl
      · simp only [hlk]
        rfl

theorem predictRisks_length (variants : List Variant) (drugs : List String) :
    (predictRisks variants drugs).length = drugs.length := by
  unfold predictRisks
  induction drugs with
  | nil => rfl
  | cons d tl ih =>
    simp only [List.map_cons, List.flatten_cons, List.length_append, ih,
      processDrug_length_one, List.length_cons]
    omega

/-- The i-th output entry is exactly the single entry produced for the
i-th requested drug. -/
theorem predictRisks_getElem (variants : List Variant) (drugs : List String)
    (i : Nat) :
    (predictRisks variants drugs)[i]? =
      (drugs[i]?).bind
        (fun d => (processDrug (groupVariantsByGene variants) d).head?) := by
  induction drugs generalizing i with
  | nil =>
    simp [predictRisks]
  | cons d tl ih =>
    have hone := processDrug_length_one (groupVariantsByGene variants) d
    rcases List.length_eq_one.mp hone with ⟨r, hr⟩
    have hcons : predictRisks variants (d :: tl) = r :: predictRisks variants tl := by
      unfold predictRisks
      simp only [List.map_cons, List.flatten_cons]
      rw [hr]
      rfl
    rcases i with _ | j
    · rw [hcons]
      simp [hr]
    · rw [hcons]
      simpa using ih j

/-- C4: predictRisks returns exactly one result per requested drug, in the
caller's order; an unmatched drug name yields an error entry with risk
Unknown for that drug only, no exception, and every entry depends only on
the variants and its own drug. -/
theorem claim_C4 (variants : List Variant) (drugs : List String) :
    (predictRisks variants drugs).length = drugs.length ∧
    (∀ (i : Nat) (d : String), drugs[i]? = some d →
      (predictRisks variants drugs)[i]? =
        (processDrug (groupVariantsByGene variants) d).head?) ∧
    (∀ d, (processDrug (groupVariantsByGene variants) d).length = 1) ∧
    (∀ d, normalizeDrugName d = none →
      processDrug (groupVariantsByGene variants) d =
        [DrugResult.err
          { drug := d, error := "Unsupported drug: " ++ d,
            risk := "Unknown", severity := "Unknown", confidence := 0 }]) := by
  refine ⟨predictRisks_length variants drugs, ?_, ?_, ?_⟩
  · intro i d hd
    rw [predictRisks_getElem, hd]
    rfl
  · intro d
    exact processDrug_length_one _ d
  · intro d hd
    unfold processDrug
    simp only [hd]

/-- Witness for C4: one unsupported and one supported drug in one call. -/
theorem claim_C4_witness :
    (predictRisks [] (["Aspirin", "Codeine"])).length = 2 ∧
    (["Aspirin", "Codeine"] : List String)[0]? = some ("Aspirin") ∧
    (predictRisks [] (["Aspirin", "Codeine"]))[0]? =
      (processDrug (groupVariantsByGene []) ("Aspirin")).head? ∧
    normalizeDrugName ("Aspirin") = none ∧
    processDrug (groupVariantsByGene []) ("Aspirin") =
      [DrugResult.err
        { drug := "Aspirin", error := "Unsupported drug: Aspirin",
          risk := "Unknown", severity := "Unknown", confidence := 0 }] :=
  ⟨(claim_C4 [] (["Aspirin", "Codeine"])).1, rfl,
    (claim_C4 [] (["Aspirin", "Codeine"])).2.1 0 ("Aspirin") rfl, rfl,
    (claim_C4 [] (["Aspirin", "Codeine"])).2.2.2 ("Aspirin") rfl⟩

/-- C1: a request whose CYP2D6 group is exactly one rs3892097 variant
(star allele *4) called homozygous alternate, with Codeine among the
requested drugs, resolves *4/*4, scores 0, classifies Poor Metabolizer
and flags Codeine as Ineffective with High severity. -/
theorem claim_C1 (v : Variant) (variants : List Variant) (drugs : List String)
    (i : Nat)
    (hv : groupVariantsByGene variants ("CYP2D6") = [v])
    (hrs : v.rsid = some ("rs3892097"))
    (hstar : v.starAllele = some ("*4"))
    (hzyg : v.zygosity = "Homozygous Alternate")
    (hdrug : drugs[i]? = some ("Codeine")) :
    ∃ r : OkResult,
      (predictRisks variants drugs)[i]? = some (DrugResult.ok r) ∧
      r.pharmacogenomicProfile.allele1 = "*4" ∧
      r.pharmacogenomicProfile.allele2 = "*4" ∧
      r.pharmacogenomicProfile.diplotype = "*4/*4" ∧
      r.pharmacogenomicProfile.activityScore = 0 ∧
      r.pharmacogenomicProfile.phenotype = "Poor Metabolizer" ∧
      r.pharmacogenomicProfile.abbreviation = "PM" ∧
      r.riskAssessment.riskCategory = "Ineffective" ∧
      r.riskAssessment.severity = "High" := by
  have hn : normalizeDrugName ("Codeine") = some ("Codeine") := rfl
  have hdr : DRUG_GENE_RULES ("Codeine") = some codeineRule := rfl
  have e4 : ("*4" : String).isEmpty = false := rfl
  have hda : determineAlleles ("CYP2D6") [v] =
      { allele1 := "*4", allele2 := "*4",
        allele1Function := getAlleleDescription ("CYP2D6") ("*4"),
        allele2Function := getAlleleDescription ("CYP2D6") ("*4") } := by
    simp [determineAlleles, hzyg, hstar, jsOrStr, e4]
  have hph : getPhenotype ("CYP2D6") ("*4") ("*4") =
      { diplotype := "*4/*4", phenotype := "Poor Metabolizer",
        abbreviation := "PM", activityScore := 0 } := by
    have g4 : getAlleleScore ("CYP2D6") ("*4") = 0 := rfl
    have hsc : activityScore ("CYP2D6") ("*4") ("*4") = 0 := by
      unfold activityScore
      rw [g4]
      norm_num
    have hpn : phenotypeName 0 = "Poor Metabolizer" := by
      unfold phenotypeName
      norm_num
    have hpa : phenotypeAbbrev ("Poor Metabolizer") = "PM" := rfl
    simp only [getPhenotype, hsc, hpn, hpa]
    rfl
  have hgene : codeineRule.gene = "CYP2D6" := rfl
  have hlk : lookupRiskRule codeineRule ("PM") = some codeinePM := rfl
  have hpd : processDrug (groupVariantsByGene variants) ("Codeine") =
      [DrugResult.ok
        { drug := "Codeine", gene := "CYP2D6",
          geneDescription := codeineRule.description,
          variants := [Variant.toEcho v],
          pharmacogenomicProfile :=
            { diplotype := "*4/*4", phenotype := "Poor Metabolizer",
              abbreviation := "PM", activityScore := 0,
              allele1 := "*4", allele2 := "*4",
              allele1Function := getAlleleDescription ("CYP2D6") ("*4"),
              allele2Function := getAlleleDescription ("CYP2D6") ("*4") },
          riskAssessment :=
            { riskCategory := "Ineffective", severity := "High",
              confidenceScore := codeinePM.confidence },
          clinicalRecommendation :=
            { recommendation := codeinePM.recommendation,
              dosageAdvice := codeinePM.dosageAdvice,
              alternatives := codeinePM.alternatives,
              mechanism := codeinePM.mechanism } }] := by
    unfold processDrug
    simp only [hn, hdr, hgene, hv, hda, hph, hlk]
    rfl
  have hmain : (predictRisks variants drugs)[i]? =
      (processDrug (groupVariantsByGene variants) ("Codeine")).head? := by
    rw [predictRisks_getElem, hdrug]
    rfl
  rw [hpd] at hmain
  simp only [List.head?_cons] at hmain
  exact ⟨_, hmain, rfl, rfl, rfl, rfl, rfl, rfl, rfl, rfl⟩

/-- Concrete rs3892097 homozygous-alternate CYP2D6 variant for the C1
witness. -/
def variantC1 : Variant :=
  { chromosome := "22", position := some 42522613, rsid := some ("rs3892097"),
    reference := "C", alternate := "T", quality := none, filter := "PASS",
    gene := "CYP2D6", starAllele := some ("*4"), info := [],
    zygosity := "Homozygous Alternate" }

/-- Witness for C1 at a concrete one-variant request. -/
theorem claim_C1_witness :
    ∃ r : OkResult,
      (predictRisks [variantC1] (["Codeine"]))[0]? = some (DrugResult.ok r) ∧
      r.pharmacogenomicProfile.allele1 = "*4" ∧
      r.pharmacogenomicProfile.allele2 = "*4" ∧
      r.pharmacogenomicProfile.diplotype = "*4/*4" ∧
      r.pharmacogenomicProfile.activityScore = 0 ∧
      r.pharmacogenomicProfile.phenotype = "Poor Metabolizer" ∧
      r.pharmacogenomicProfile.abbreviation = "PM" ∧
      r.riskAssessment.riskCategory = "Ineffective" ∧
      r.riskAssessment.severity = "High" :=
  claim_C1 variantC1 [variantC1] (["Codeine"]) 0 rfl rfl rfl rfl rfl

/-!  Claim C5: allele resolution with two or more variants.  -/

/-- First variant of the C5 inputs: heterozygous CYP2D6 *4. -/
def variantC5A : Variant :=
  { chromosome := "22", position := some 100, rsid := some ("rs3892097"),
    reference := "C", alternate := "T", quality := none, filter := "PASS",
    gene := "CYP2D6", starAllele := some ("*4"), info := [],
    zygosity := "Heterozygous" }

/-- Second variant of the C5 inputs: CYP2D6 record without a resolved
star allele. -/
def variantC5B : Variant :=
  { chromosome := "22", position := some 200, rsid := some ("rs99999"),
    reference := "A", alternate := "G", quality := none, filter := "PASS",
    gene := "CYP2D6", starAllele := none, info := [],
    zygosity := "Heterozygous" }

/-- C5 counterexample: with a heterozygous first variant and a second
variant lacking a star allele, the resolver returns the FIRST variant's
star allele as allele2 (*4), not the second variant's (which would fall
back to the default *1), so the claim as stated fails. -/
theorem claim_C5_counterexample :
    2 ≤ ([variantC5A, variantC5B] : List Variant).length ∧
    variantC5A.zygosity = "Heterozygous" ∧
    variantC5B.starAllele = none ∧
    (determineAlleles ("CYP2D6") [variantC5A, variantC5B]).allele1 =
      jsOrStr (DEFAULT_ALLELES ("CYP2D6")) ("*1") ∧
    (determineAlleles ("CYP2D6") [variantC5A, variantC5B]).allele2 = "*4" ∧
    jsOrStr variantC5B.starAllele (jsOrStr (DEFAULT_ALLELES ("CYP2D6")) ("*1")) = "*1" ∧
    (determineAlleles ("CYP2D6") [variantC5A, variantC5B]).allele2 ≠
      jsOrStr variantC5B.starAllele (jsOrStr (DEFAULT_ALLELES ("CYP2D6")) ("*1")) := by
  decide

/-- C5 amended: for a heterozygous first variant, allele1 is the gene
default and allele2 is the second variant's star allele when present,
otherwise the FIRST variant's star allele when present, otherwise the
default; variants beyond the first two are ignored. -/
theorem claim_C5_amended (gene : String) (v1 v2 : Variant) (rest : List Variant)
    (hz : v1.zygosity = "Heterozygous") :
    (determineAlleles gene (v1 :: v2 :: rest)).allele1 =
      jsOrStr (DEFAULT_ALLELES gene) ("*1") ∧
    (determineAlleles gene (v1 :: v2 :: rest)).allele2 =
      jsOrStr v2.starAllele
        (jsOrStr v1.starAllele (jsOrStr (DEFAULT_ALLELES gene) ("*1"))) ∧
    determineAlleles gene (v1 :: v2 :: rest) = determineAlleles gene [v1, v2] := by
  have c1 : (("Heterozygous" : String) == "Homozygous Alternate") = false := rfl
  have c2 : (("Heterozygous" : String) == "Heterozygous") = true := rfl
  refine ⟨?_, ?_, ?_⟩ <;>
    simp [determineAlleles, hz, c1, c2]

/-- Witness for the amended C5 at the concrete two-variant input. -/
theorem claim_C5_witness :
    variantC5A.zygosity = "Heterozygous" ∧
    (determineAlleles ("CYP2D6") [variantC5A, variantC5B]).allele1 =
      jsOrStr (DEFAULT_ALLELES ("CYP2D6")) ("*1") ∧
    (determineAlleles ("CYP2D6") [variantC5A, variantC5B]).allele2 =
      jsOrStr variantC5B.starAllele
        (jsOrStr variantC5A.starAllele (jsOrStr (DEFAULT_ALLELES ("CYP2D6")) ("*1"))) :=
  ⟨rfl, (claim_C5_amended ("CYP2D6") variantC5A variantC5B [] rfl).1,
    (claim_C5_amended ("CYP2D6") variantC5A variantC5B [] rfl).2.1⟩

/-!  Claim C6: relevance test of the extractor.  -/

/-- Data line whose INFO carries explicit gene/star tags for a gene
outside the supported set, with an identifier absent from the
reference table. -/
def lineC6 : String := "1\t100\trs99999\tA\tG\t.\tPASS\tGENE=FOO;STAR=*9"

/-- C6 counterexample: a record with explicit INFO gene and star-allele
tags, an unknown identifier and an unsupported gene is NOT extracted,
although the claim calls condition (a) alone sufficient. -/
theorem claim_C6_counterexample :
    8 ≤ (lineCols lineC6).length ∧
    jvalTruthy (jsObjGet (lineInfo lineC6) ("GENE")) = true ∧
    jvalTruthy (jsObjGet (lineInfo lineC6) ("STAR")) = true ∧
    extractVariant lineC6 = none := by
  decide

/-- C6 amended: a data line is extracted as relevant iff it has at least
8 columns, a gene resolves (from INFO or the identifier reference table),
and either the identifier matches the reference table or the resolved
gene is in the supported gene set.  Explicit INFO gene/star tags alone do
not suffice. -/
theorem claim_C6_amended (line : String) :
    (extractVariant line).isSome = true ↔
      (8 ≤ (lineCols line).length ∧
        (lineMappedGene line).isSome = true ∧
        ((lineRsidMapping line).isSome = true ∨ lineGeneSupported line = true)) := by
  by_cases h8 : (lineCols line).length < 8
  · have hle : ¬ 8 ≤ (lineCols line).length := by omega
    simp only [extractVariant, if_pos h8]
    simp [hle]
  · have hle : 8 ≤ (lineCols line).length := by omega
    simp only [extractVariant, if_neg h8]
    by_cases hp : (lineIsPGx line && (lineMappedGene line).isSome) = true
    · rw [if_pos hp]
      rw [Bool.and_eq_true] at hp
      obtain ⟨hpg, hmg⟩ := hp
      unfold lineIsPGx at hpg
      rw [Bool.or_eq_true] at hpg
      simp only [Option.isSome_some, true_iff]
      exact ⟨hle, hmg, hpg⟩
    · rw [if_neg hp]
      simp only [Option.isSome_none]
      constructor
      · intro hfalse
        exact absurd hfalse (by simp)
      · rintro ⟨_, hmg, hor⟩
        exfalso
        apply hp
        rw [Bool.and_eq_true]
        refine ⟨?_, hmg⟩
        unfold lineIsPGx
        rw [Bool.or_eq_true]
        exact hor

/-- Data line carrying only the rs3892097 identifier, relevant through
the reference table. -/
def lineC6W : String := "22\t42522613\trs3892097\tC\tT\t.\tPASS\t."

/-- Witness for the amended C6 at a reference-table-matched line. -/
theorem claim_C6_witness :
    (extractVariant lineC6W).isSome = true ∧
    8 ≤ (lineCols lineC6W).length ∧
    (lineMappedGene lineC6W).isSome = true ∧
    (lineRsidMapping lineC6W).isSome = true :=
  ⟨(claim_C6_amended lineC6W).mpr ⟨by decide, by decide, Or.inl (by decide)⟩,
    by decide, by decide, by decide⟩

/-!  Claim C7: zygosity derivation.  -/

/-- C7 counterexample: the genotype value ./. is not two numeric
haplotype indices, yet the code classifies it Homozygous Alternate (the
two split parts are equal and differ from the literal 0), not Unknown. -/
theorem claim_C7_counterexample :
    determineZygosity
        ["1", "100", "rs3892097", "A", "G", ".", "PASS", ".", "GT", "./."] =
      "Homozygous Alternate" ∧
    ("Homozygous Alternate" : String) ≠ "Unknown" := by
  decide

/-- C7 amended: the derivation locates GT by name, splits its value on
slash when one occurs and otherwise on pipe, and compares the two parts
as STRINGS: missing GT or a split of other than two parts gives Unknown;
two equal parts give Homozygous Reference exactly when the part is the
literal 0 and Homozygous Alternate otherwise (so ./. is Homozygous
Alternate); unequal parts give Heterozygous. -/
theorem claim_C7_amended (cols : List String) :
    (gtField cols = none → determineZygosity cols = "Unknown") ∧
    (∀ gt, gtField cols = some gt →
      ((jsSplitOn gt (if jsIncludes gt ("/") then "/" else "|")).length ≠ 2 →
        determineZygosity cols = "Unknown") ∧
      (∀ a b, jsSplitOn gt (if jsIncludes gt ("/") then "/" else "|") = [a, b] →
        ((a = b ∧ a = "0") → determineZygosity cols = "Homozygous Reference") ∧
        ((a = b ∧ a ≠ "0") → determineZygosity cols = "Homozygous Alternate") ∧
        (a ≠ b → determineZygosity cols = "Heterozygous"))) := by
  constructor
  · intro h
    unfold determineZygosity
    simp only [h]
  · intro gt hgt
    have hdz : determineZygosity cols = classifyGT gt := by
      unfold determineZygosity
      simp only [hgt]
    constructor
    · intro hlen
      rw [hdz]
      simp only [classifyGT]
      rw [if_pos hlen]
    · intro a b hab
      refine ⟨?_, ?_, ?_⟩
      · rintro ⟨he, h0⟩
        subst he
        subst h0
        rw [hdz]
        simp [classifyGT, hab]
      · rintro ⟨he, h0⟩
        subst he
        rw [hdz]
        simp [classifyGT, hab, h0]
      · intro hne
        rw [hdz]
        simp [classifyGT, hab, hne]

/-- Witness for the amended C7 on an ordinary heterozygous call. -/
theorem claim_C7_witness :
    gtField ["1", "100", "rs1", "A", "G", ".", "PASS", ".", "GT", "0/1"] =
      some ("0/1") ∧
    jsSplitOn ("0/1") (if jsIncludes ("0/1") ("/") then "/" else "|") = ["0", "1"] ∧
    ("0" : String) ≠ "1" ∧
    determineZygosity ["1", "100", "rs1", "A", "G", ".", "PASS", ".", "GT", "0/1"] =
      "Heterozygous" :=
  ⟨by decide, by decide, by decide,
    (((claim_C7_amended
          ["1", "100", "rs1", "A", "G", ".", "PASS", ".", "GT", "0/1"]).2
        ("0/1") (by decide)).2 ("0") ("1") (by decide)).2.2 (by decide)⟩

/-!  Claim C8: structural validation.  -/

/-- C8 counterexample: on empty input the validator returns early with
the single emptiness error, although the fileformat check (among others)
also fails; the claim requires one entry per failed check, i.e. four. -/
theorem claim_C8_counterexample :
    validateVCF ("") = { valid := false, errors := [("Empty VCF file")] } ∧
    ((vcfLines ("")).any (fun l => jsStartsWith l ("##fileformat=VCF"))) = false ∧
    (validateVCF ("")).errors.length ≠ 4 := by
  decide

/-- C8 amended: valid holds iff the error list is empty; an EMPTY input
short-circuits with only the emptiness error; a non-empty input
accumulates, in order, one entry for each failed check among
fileformat, column header and data presence. -/
theorem claim_C8_amended (content : String) :
    ((validateVCF content).valid = true ↔ (validateVCF content).errors = []) ∧
    (vcfLines content = [] →
      validateVCF content = { valid := false, errors := [("Empty VCF file")] }) ∧
    (vcfLines content ≠ [] →
      (((vcfLines content).any (fun l => jsStartsWith l ("##fileformat=VCF")) = false ↔
          fileformatErr ∈ (validateVCF content).errors) ∧
        (((vcfLines content).find? (fun l => jsStartsWith l ("#CHROM"))).isSome = false ↔
          chromErr ∈ (validateVCF content).errors) ∧
        (((vcfLines content).filter (fun l => !jsStartsWith l ("#"))).length = 0 ↔
          noDataErr ∈ (validateVCF content).errors) ∧
        (validateVCF content).errors.length =
          ((if (vcfLines content).any (fun l => jsStartsWith l ("##fileformat=VCF"))
              then 0 else 1) +
            (if ((vcfLines content).find? (fun l => jsStartsWith l ("#CHROM"))).isSome
              then 0 else 1) +
            (if ((vcfLines content).filter (fun l => !jsStartsWith l ("#"))).length = 0
              then 1 else 0)))) := by
  by_cases h0 : (vcfLines content).length = 0
  · have hnil : vcfLines content = [] := List.length_eq_zero.mp h0
    have hres : validateVCF content = { valid := false, errors := [("Empty VCF file")] } := by
      simp only [validateVCF]
      rw [if_pos h0]
    refine ⟨?_, fun _ => hres, fun hne => absurd hnil hne⟩
    rw [hres]
    simp
  · have hne : vcfLines content ≠ [] := by
      intro h
      exact h0 (by rw [h]; rfl)
    have herr : (validateVCF content).errors =
        (if (vcfLines content).any (fun l => jsStartsWith l ("##fileformat=VCF"))
            then ([] : List String) else [fileformatErr]) ++
          (if ((vcfLines content).find? (fun l => jsStartsWith l ("#CHROM"))).isSome
            then ([] : List String) else [chromErr]) ++
          (if ((vcfLines content).filter (fun l => !jsStartsWith l ("#"))).length = 0
            then [noDataErr] else ([] : List String)) := by
      simp only [validateVCF]
      rw [if_neg h0]
    have hval : (validateVCF content).valid =
        ((validateVCF content).errors.length = 0 : Bool) := by
      simp only [validateVCF]
      rw [if_neg h0]
    refine ⟨?_, fun h => absurd h hne, fun _ => ?_⟩
    · rw [hval]
      simp [List.length_eq_zero]
    · rw [herr]
      by_cases hc3 : ((vcfLines content).filter (fun l => !jsStartsWith l ("#"))).length = 0 <;>
        cases hb1 : (vcfLines content).any (fun l => jsStartsWith l ("##fileformat=VCF")) <;>
          cases hb2 : ((vcfLines content).find? (fun l => jsStartsWith l ("#CHROM"))).isSome <;>
            simp [hc3, fileformatErr, chromErr, noDataErr]

/-- Witness for the amended C8: a file with only a fileformat line fails
the header and data checks, and both failures are reported. -/
theorem claim_C8_witness :
    vcfLines ("##fileformat=VCFv4.2") ≠ [] ∧
    chromErr ∈ (validateVCF ("##fileformat=VCFv4.2")).errors ∧
    noDataErr ∈ (validateVCF ("##fileformat=VCFv4.2")).errors ∧
    (validateVCF ("##fileformat=VCFv4.2")).errors.length = 2 := by
  have h := (claim_C8_amended ("##fileformat=VCFv4.2")).2.2 (by decide)
  refine ⟨by decide, h.2.1.mp (by decide), h.2.2.1.mp (by decide), ?_⟩
  rw [h.2.2.2]
  decide

end PharmaGuard
